import Mathlib

/-!
Verification of the Nissan Leaf charging-time calculator
(`NissanLeafCharger.py`).

The numeric model uses `ℚ` for Python floats; Python's `float('inf')`
sentinel is the `Duration.Infinite` constructor of an explicit sum type,
and a raised `ValueError` is the `Except.error` branch carrying the
exception's message string.
-/

/-- A charging duration: either a finite number of hours or the
`float('inf')` sentinel returned when the charging rate is ≤ 0. -/
inductive Duration where
  | Finite : ℚ → Duration
  | Infinite : Duration
deriving DecidableEq, Repr

/-- Order on durations: any finite duration is below `Infinite`,
`Infinite` is below only itself, and finite durations compare by hours. -/
def Duration.le : Duration → Duration → Prop
  | _, .Infinite => True
  | .Infinite, .Finite _ => False
  | .Finite a, .Finite b => a ≤ b

instance (d e : Duration) : Decidable (Duration.le d e) := by
  cases d <;> cases e <;> simp only [Duration.le] <;> infer_instance

/-- The mutable fields of the `NissanLeafCharger` class, as a value. -/
structure NissanLeafCharger where
  battery_capacity : ℚ
  battery_health : ℚ
  current_charge : ℚ
  charging_rate : ℚ
deriving DecidableEq, Repr

/-- `NissanLeafCharger.calculate_charging_time`: validates
`target_percentage`, computes the energy gap from the current charge to
the target at the health-scaled capacity, returns `inf` when the
charging rate is ≤ 0, and otherwise divides the 10%-surcharged energy by
the rate.  (`11 / 10` is the source's `1.1` literal.) -/
def calculate_charging_time (c : NissanLeafCharger)
    (target_percentage : ℚ) : Except String Duration :=
  if ¬ (0 ≤ target_percentage ∧ target_percentage ≤ 100) then
    Except.error "Target percentage must be between 0 and 100"
  else
    let actual_capacity := c.battery_capacity * (c.battery_health / 100)
    let current_energy := actual_capacity * (c.current_charge / 100)
    let target_energy := actual_capacity * (target_percentage / 100)
    let energy_needed := target_energy - current_energy
    if c.charging_rate ≤ 0 then
      Except.ok Duration.Infinite
    else
      Except.ok (Duration.Finite (energy_needed * (11 / 10) / c.charging_rate))

/-- The energy (kWh) the charger must deliver, after the 10% inefficiency
surcharge: the value of the source's `energy_needed` variable at the
point where it is divided by the charging rate. -/
def energy_needed (cap health current target : ℚ) : ℚ :=
  (cap * (health / 100) * (target / 100) -
    cap * (health / 100) * (current / 100)) * (11 / 10)

/-- The estimator pipeline of `NissanLeafGUI.update_calculations`: the
range checks it performs on battery health and current charge before
calling `calculate_charging_time`, with each `ValueError` message. -/
def update_calculations_core (cap health current rate target : ℚ) :
    Except String Duration :=
  if ¬ (0 ≤ health ∧ health ≤ 100) then
    Except.error "Battery health must be between 0 and 100"
  else if ¬ (0 ≤ current ∧ current ≤ 100) then
    Except.error "Current charge must be between 0 and 100"
  else
    calculate_charging_time
      { battery_capacity := cap, battery_health := health,
        current_charge := current, charging_rate := rate } target

/-- Python's `int()` applied to a float: truncation toward zero. -/
def pyTrunc (q : ℚ) : ℤ := if 0 ≤ q then ⌊q⌋ else ⌈q⌉

/-- `NissanLeafGUI.format_time`: `'Invalid input'` for the infinite
sentinel, otherwise whole hours and minutes via `int` truncation, with
the branch structure of the source (`hours_int == 0` first, then
`minutes == 0`). -/
def format_time : Duration → String
  | .Infinite => "Invalid input"
  | .Finite hours =>
    let hours_int : ℤ := pyTrunc hours
    let minutes : ℤ := pyTrunc ((hours - (hours_int : ℚ)) * 60)
    if hours_int = 0 then
      toString minutes ++ " minutes"
    else if minutes = 0 then
      toString hours_int ++ " hours"
    else
      toString hours_int ++ " hours " ++ toString minutes ++ " minutes"

/-- The TimeFormatter of spec §4.2, written from its words: whole hours
(floor), remaining minutes as the floor of the fractional hour × 60, a
fixed string for the infinite sentinel, the hours term omitted when whole
hours is zero, the minutes term omitted when minutes is zero. -/
def format_time_spec : Duration → String
  | .Infinite => "Invalid input"
  | .Finite hours =>
    let whole : ℤ := ⌊hours⌋
    let minutes : ℤ := ⌊(hours - (whole : ℚ)) * 60⌋
    if whole = 0 then
      toString minutes ++ " minutes"
    else if minutes = 0 then
      toString whole ++ " hours"
    else
      toString whole ++ " hours " ++ toString minutes ++ " minutes"

/-- Numeric value of a digit list read most-significant first. -/
def digitsToNat : List Char → Nat → Nat
  | [], acc => acc
  | c :: cs, acc => digitsToNat cs (acc * 10 + (c.toNat - 48))

/-- Parse an unsigned decimal mantissa, `digits`, `digits.digits`,
`digits.` or `.digits`, returning its value and the unconsumed tail. -/
def parseMantissa (cs : List Char) : Option (ℚ × List Char) :=
  let p := cs.span Char.isDigit
  match p.2 with
  | '.' :: rest2 =>
    let q := rest2.span Char.isDigit
    if p.1.isEmpty ∧ q.1.isEmpty then none
    else
      some ((digitsToNat p.1 0 : ℚ) +
        (digitsToNat q.1 0 : ℚ) / (10 ^ q.1.length), q.2)
  | _ => if p.1.isEmpty then none else some ((digitsToNat p.1 0 : ℚ), p.2)

/-- Model of Python's `float(str)` on decimal literals: optional sign,
mantissa, optional exponent; `none` when the string is not a number.
The special literals `inf`/`nan`, which have no rational value, are
outside the model. -/
def pyFloatOfString (s : String) : Option ℚ :=
  let cs := s.data
  let signed : ℚ × List Char :=
    match cs with
    | '+' :: t => (1, t)
    | '-' :: t => (-1, t)
    | t => (1, t)
  match parseMantissa signed.2 with
  | none => none
  | some (m, rest) =>
    match rest with
    | [] => some (signed.1 * m)
    | e :: t =>
      if e = 'e' ∨ e = 'E' then
        let esigned : ℤ × List Char :=
          match t with
          | '+' :: t2 => (1, t2)
          | '-' :: t2 => (-1, t2)
          | t2 => (1, t2)
        let q := esigned.2.span Char.isDigit
        if q.1.isEmpty ∨ ¬ q.2.isEmpty then none
        else
          some (signed.1 * m *
            (10 : ℚ) ^ (esigned.1 * (digitsToNat q.1 0 : ℤ)))
      else none

/-- Python's `str.strip()`: drop leading and trailing whitespace. -/
def pyStrip (s : String) : String :=
  String.mk
    (((s.data.dropWhile Char.isWhitespace).reverse.dropWhile
      Char.isWhitespace).reverse)

/-- `NissanLeafGUI.validate_number`: `0.0` for blank input, the parsed
float otherwise, `0.0` again when parsing raises `ValueError`. -/
def validate_number (value : String) : ℚ :=
  if pyStrip value = "" then 0
  else
    match pyFloatOfString (pyStrip value) with
    | some q => q
    | none => 0

/-! ## Helper lemmas -/

lemma duration_le_finite {a b : ℚ} :
    Duration.le (.Finite a) (.Finite b) ↔ a ≤ b := Iff.rfl

/-- With a valid target and a positive rate, `calculate_charging_time`
returns the surcharged energy divided by the rate. -/
lemma calc_spec_pos (c : NissanLeafCharger) (t : ℚ)
    (ht : 0 ≤ t ∧ t ≤ 100) (hr : 0 < c.charging_rate) :
    calculate_charging_time c t =
      Except.ok (Duration.Finite
        (energy_needed c.battery_capacity c.battery_health
          c.current_charge t / c.charging_rate)) := by
  simp only [calculate_charging_time, energy_needed,
    if_neg (not_not_intro ht), if_neg (not_le.mpr hr)]

/-- With a valid target and a rate ≤ 0, `calculate_charging_time`
returns the infinite sentinel. -/
lemma calc_spec_inf (c : NissanLeafCharger) (t : ℚ)
    (ht : 0 ≤ t ∧ t ≤ 100) (hr : c.charging_rate ≤ 0) :
    calculate_charging_time c t = Except.ok Duration.Infinite := by
  simp only [calculate_charging_time, if_neg (not_not_intro ht), if_pos hr]

/-- The surcharged energy is ≤ 0 when the target does not exceed the
current charge (nonneg capacity and health). -/
lemma energy_needed_nonpos {cap health current target : ℚ}
    (hcap : 0 ≤ cap) (hh : 0 ≤ health) (htc : target ≤ current) :
    energy_needed cap health current target ≤ 0 := by
  have hA : 0 ≤ cap * (health / 100) := by positivity
  have := mul_nonneg hA (sub_nonneg.mpr htc)
  unfold energy_needed
  nlinarith

/-- The surcharged energy is ≥ 0 when the target is at least the
current charge (nonneg capacity and health). -/
lemma energy_needed_nonneg {cap health current target : ℚ}
    (hcap : 0 ≤ cap) (hh : 0 ≤ health) (hct : current ≤ target) :
    0 ≤ energy_needed cap health current target := by
  have hA : 0 ≤ cap * (health / 100) := by positivity
  have := mul_nonneg hA (sub_nonneg.mpr hct)
  unfold energy_needed
  nlinarith

/-- The surcharged energy is monotone in the target percentage. -/
lemma energy_needed_mono_target {cap health current t1 t2 : ℚ}
    (hcap : 0 ≤ cap) (hh : 0 ≤ health) (ht : t1 ≤ t2) :
    energy_needed cap health current t1 ≤
      energy_needed cap health current t2 := by
  have hA : 0 ≤ cap * (health / 100) := by positivity
  have := mul_nonneg hA (sub_nonneg.mpr ht)
  unfold energy_needed
  nlinarith

/-! ## Claims -/

/-- Claim C1 is false on the code: at capacity 40 kWh, health 100%,
current charge 80%, rate 6.6 kW and target 0% (so target ≤ current),
`calculate_charging_time` returns −16/3 hours, a strictly negative
duration, not 0. -/
theorem c1_counterexample :
    calculate_charging_time ⟨40, 100, 80, 33/5⟩ 0 =
      Except.ok (Duration.Finite (-16/3)) ∧ ((-16/3 : ℚ) < 0) := by
  constructor
  · rw [calc_spec_pos _ _ ⟨by norm_num, by norm_num⟩ (by norm_num)]
    simp only [energy_needed, Except.ok.injEq, Duration.Finite.injEq]
    norm_num
  · norm_num

/-- Claim C1 (amended): for capacity > 0, percentages in [0,100] and
rate > 0, if target ≤ current then `calculate_charging_time` returns a
duration ≤ 0 hours, and exactly 0 when target equals current (the code
never clamps a negative energy gap to zero). -/
theorem c1_target_le_current_nonpos (cap health current target rate : ℚ)
    (hcap : 0 < cap) (hh0 : 0 ≤ health) (hh1 : health ≤ 100)
    (hc0 : 0 ≤ current) (hc1 : current ≤ 100)
    (ht0 : 0 ≤ target) (ht1 : target ≤ 100)
    (hr : 0 < rate) (htc : target ≤ current) :
    ∃ d : ℚ,
      calculate_charging_time ⟨cap, health, current, rate⟩ target =
        Except.ok (Duration.Finite d) ∧ d ≤ 0 ∧
      (target = current → d = 0) := by
  refine ⟨_, calc_spec_pos _ _ ⟨ht0, ht1⟩ hr, ?_, ?_⟩
  · exact div_nonpos_iff.mpr
      (Or.inr ⟨energy_needed_nonpos hcap.le hh0 htc, hr.le⟩)
  · intro he
    rw [he]
    simp [energy_needed]

/-- Claim C1 (amended) at capacity 40, health 100, current 80, target 80,
rate 6.6: the duration is ≤ 0, and 0 since target = current. -/
theorem c1_witness :
    ∃ d : ℚ,
      calculate_charging_time ⟨40, 100, 80, 33/5⟩ 80 =
        Except.ok (Duration.Finite d) ∧ d ≤ 0 ∧ ((80 : ℚ) = 80 → d = 0) :=
  c1_target_le_current_nonpos 40 100 80 80 (33/5) (by norm_num)
    (by norm_num) (by norm_num) (by norm_num) (by norm_num) (by norm_num)
    (by norm_num) (by norm_num) (by norm_num)

/-- Claim C2: an out-of-range battery health fails with the ValueError
naming battery health; with health in range, an out-of-range current
charge fails naming current charge; with both in range, an out-of-range
target fails naming the target percentage.  In particular
health = 150 gives the battery-health error (see the witness). -/
theorem c2_invalid_percentage_ranges (cap health current rate target : ℚ) :
    (¬ (0 ≤ health ∧ health ≤ 100) →
      update_calculations_core cap health current rate target =
        Except.error "Battery health must be between 0 and 100") ∧
    ((0 ≤ health ∧ health ≤ 100) → ¬ (0 ≤ current ∧ current ≤ 100) →
      update_calculations_core cap health current rate target =
        Except.error "Current charge must be between 0 and 100") ∧
    ((0 ≤ health ∧ health ≤ 100) → (0 ≤ current ∧ current ≤ 100) →
      ¬ (0 ≤ target ∧ target ≤ 100) →
      update_calculations_core cap health current rate target =
        Except.error "Target percentage must be between 0 and 100") := by
  refine ⟨fun hh => ?_, fun hh hc => ?_, fun hh hc ht => ?_⟩
  · simp only [update_calculations_core, if_pos hh]
  · simp only [update_calculations_core, if_neg (not_not_intro hh),
      if_pos hc]
  · simp only [update_calculations_core, if_neg (not_not_intro hh),
      if_neg (not_not_intro hc), calculate_charging_time, if_pos ht]

/-- Claim C2 at health = 150: the estimator pipeline fails with the
message naming battery health. -/
theorem c2_witness :
    update_calculations_core 40 150 0 (33/5) 80 =
      Except.error "Battery health must be between 0 and 100" :=
  (c2_invalid_percentage_ranges 40 150 0 (33/5) 80).1 (by norm_num)

/-- Claim C3 is false on the code: at capacity 62 kWh, health 100%,
current charge 100%, rate 3.3 kW and target 50% (all inside the claimed
ranges), the returned duration is −31/3 hours, which is negative. -/
theorem c3_counterexample :
    calculate_charging_time ⟨62, 100, 100, 33/10⟩ 50 =
      Except.ok (Duration.Finite (-31/3)) ∧ ((-31/3 : ℚ) < 0) := by
  constructor
  · rw [calc_spec_pos _ _ ⟨by norm_num, by norm_num⟩ (by norm_num)]
    simp only [energy_needed, Except.ok.injEq, Duration.Finite.injEq]
    norm_num
  · norm_num

/-- Claim C3 (amended): with the additional hypothesis current ≤ target,
the duration returned by `calculate_charging_time` is ≥ 0 (the code
only guarantees nonnegativity when the target is not below the current
charge). -/
theorem c3_duration_nonneg (cap health current target rate : ℚ)
    (hcap : 0 < cap) (hh0 : 0 ≤ health) (hh1 : health ≤ 100)
    (hc0 : 0 ≤ current) (hc1 : current ≤ 100)
    (ht0 : 0 ≤ target) (ht1 : target ≤ 100)
    (hr : 0 < rate) (hct : current ≤ target) :
    ∃ d : ℚ,
      calculate_charging_time ⟨cap, health, current, rate⟩ target =
        Except.ok (Duration.Finite d) ∧ 0 ≤ d := by
  refine ⟨_, calc_spec_pos _ _ ⟨ht0, ht1⟩ hr, ?_⟩
  exact div_nonneg (energy_needed_nonneg hcap.le hh0 hct) hr.le

/-- Claim C3 (amended) at capacity 40, health 100, current 20, target 80,
rate 1.4: the duration is nonnegative. -/
theorem c3_witness :
    ∃ d : ℚ,
      calculate_charging_time ⟨40, 100, 20, 7/5⟩ 80 =
        Except.ok (Duration.Finite d) ∧ 0 ≤ d :=
  c3_duration_nonneg 40 100 20 80 (7/5) (by norm_num) (by norm_num)
    (by norm_num) (by norm_num) (by norm_num) (by norm_num) (by norm_num)
    (by norm_num) (by norm_num)

/-- Claim C4: with a valid target, a zero rate yields the infinite
sentinel with no error, and a positive rate yields the surcharged
energy-needed divided by the rate. -/
theorem c4_zero_rate_and_division (cap health current rate target : ℚ)
    (ht0 : 0 ≤ target) (ht1 : target ≤ 100) :
    (rate = 0 →
      calculate_charging_time ⟨cap, health, current, rate⟩ target =
        Except.ok Duration.Infinite) ∧
    (0 < rate →
      calculate_charging_time ⟨cap, health, current, rate⟩ target =
        Except.ok (Duration.Finite
          (energy_needed cap health current target / rate))) := by
  constructor
  · intro h0
    exact calc_spec_inf _ _ ⟨ht0, ht1⟩ (le_of_eq h0)
  · intro hr
    exact calc_spec_pos _ _ ⟨ht0, ht1⟩ hr

/-- Claim C4 at rate 0 (infinite sentinel) and at rate 6.6 (exact
quotient). -/
theorem c4_witness :
    calculate_charging_time ⟨40, 100, 0, 0⟩ 80 =
      Except.ok Duration.Infinite ∧
    calculate_charging_time ⟨40, 100, 0, 33/5⟩ 80 =
      Except.ok (Duration.Finite (energy_needed 40 100 0 80 / (33/5))) :=
  ⟨(c4_zero_rate_and_division 40 100 0 0 80 (by norm_num)
      (by norm_num)).1 rfl,
   (c4_zero_rate_and_division 40 100 0 (33/5) 80 (by norm_num)
      (by norm_num)).2 (by norm_num)⟩

/-- Claim C5 is false on the code: at capacity 40, health 100, current
charge 80, target 0, raising the rate from 3.3 kW to 6.6 kW moves the
duration from −32/3 up to −16/3 hours — a larger rate gives a strictly
larger duration when the energy gap is negative. -/
theorem c5_counterexample :
    calculate_charging_time ⟨40, 100, 80, 33/10⟩ 0 =
      Except.ok (Duration.Finite (-32/3)) ∧
    calculate_charging_time ⟨40, 100, 80, 33/5⟩ 0 =
      Except.ok (Duration.Finite (-16/3)) ∧
    ¬ ((-16/3 : ℚ) ≤ (-32/3 : ℚ)) := by
  refine ⟨?_, ?_, by norm_num⟩
  · rw [calc_spec_pos _ _ ⟨by norm_num, by norm_num⟩ (by norm_num)]
    simp only [energy_needed, Except.ok.injEq, Duration.Finite.injEq]
    norm_num
  · rw [calc_spec_pos _ _ ⟨by norm_num, by norm_num⟩ (by norm_num)]
    simp only [energy_needed, Except.ok.injEq, Duration.Finite.injEq]
    norm_num

/-- Claim C5 (amended): with the additional hypothesis current ≤ target,
increasing the rate (0 < r1 < r2) never increases the duration. -/
theorem c5_rate_mono (cap health current target r1 r2 : ℚ)
    (hcap : 0 < cap) (hh0 : 0 ≤ health) (hh1 : health ≤ 100)
    (hc0 : 0 ≤ current) (hc1 : current ≤ 100)
    (ht0 : 0 ≤ target) (ht1 : target ≤ 100)
    (hct : current ≤ target) (hr1 : 0 < r1) (hr12 : r1 < r2) :
    ∃ d1 d2 : ℚ,
      calculate_charging_time ⟨cap, health, current, r1⟩ target =
        Except.ok (Duration.Finite d1) ∧
      calculate_charging_time ⟨cap, health, current, r2⟩ target =
        Except.ok (Duration.Finite d2) ∧ d2 ≤ d1 := by
  refine ⟨_, _, calc_spec_pos _ _ ⟨ht0, ht1⟩ hr1,
    calc_spec_pos _ _ ⟨ht0, ht1⟩ (hr1.trans hr12), ?_⟩
  exact div_le_div_of_nonneg_left
    (energy_needed_nonneg hcap.le hh0 hct) hr1 hr12.le

/-- Claim C5 (amended) at capacity 40, health 100, current 20, target 80,
rates 3.3 < 6.6: the faster charger needs no more time. -/
theorem c5_witness :
    ∃ d1 d2 : ℚ,
      calculate_charging_time ⟨40, 100, 20, 33/10⟩ 80 =
        Except.ok (Duration.Finite d1) ∧
      calculate_charging_time ⟨40, 100, 20, 33/5⟩ 80 =
        Except.ok (Duration.Finite d2) ∧ d2 ≤ d1 :=
  c5_rate_mono 40 100 20 80 (33/10) (33/5) (by norm_num) (by norm_num)
    (by norm_num) (by norm_num) (by norm_num) (by norm_num) (by norm_num)
    (by norm_num) (by norm_num) (by norm_num)

/-- Claim C6: holding capacity (> 0), health, current charge and a
rate ≥ 0 fixed, a higher target percentage never yields a smaller
duration (both targets in [0,100]); at rate 0 both durations are the
infinite sentinel. -/
theorem c6_target_mono (cap health current rate t1 t2 : ℚ)
    (hcap : 0 < cap) (hh0 : 0 ≤ health) (hh1 : health ≤ 100)
    (hc0 : 0 ≤ current) (hc1 : current ≤ 100) (hr : 0 ≤ rate)
    (ht0 : 0 ≤ t1) (ht12 : t1 ≤ t2) (ht2 : t2 ≤ 100) :
    ∃ d1 d2 : Duration,
      calculate_charging_time ⟨cap, health, current, rate⟩ t1 =
        Except.ok d1 ∧
      calculate_charging_time ⟨cap, health, current, rate⟩ t2 =
        Except.ok d2 ∧
      Duration.le d1 d2 := by
  have h1 : 0 ≤ t1 ∧ t1 ≤ 100 := ⟨ht0, ht12.trans ht2⟩
  have h2 : 0 ≤ t2 ∧ t2 ≤ 100 := ⟨ht0.trans ht12, ht2⟩
  rcases hr.lt_or_eq with hpos | hzero
  · refine ⟨_, _, calc_spec_pos _ _ h1 hpos, calc_spec_pos _ _ h2 hpos, ?_⟩
    rw [duration_le_finite]
    exact (div_le_div_iff_of_pos_right hpos).mpr
      (energy_needed_mono_target hcap.le hh0 ht12)
  · exact ⟨_, _, calc_spec_inf _ _ h1 (le_of_eq hzero.symm),
      calc_spec_inf _ _ h2 (le_of_eq hzero.symm), trivial⟩

/-- Claim C6 at capacity 40, health 100, current 0, rate 6.6,
targets 50 ≤ 80. -/
theorem c6_witness :
    ∃ d1 d2 : Duration,
      calculate_charging_time ⟨40, 100, 0, 33/5⟩ 50 = Except.ok d1 ∧
      calculate_charging_time ⟨40, 100, 0, 33/5⟩ 80 = Except.ok d2 ∧
      Duration.le d1 d2 :=
  c6_target_mono 40 100 0 (33/5) 50 80 (by norm_num) (by norm_num)
    (by norm_num) (by norm_num) (by norm_num) (by norm_num) (by norm_num)
    (by norm_num) (by norm_num)

/-- Claim C7: at capacity 40 kWh, health 100%, current 0%, target 80%,
rate 6.6 kW, the surcharged energy needed is 35.2 kWh (176/5), the
duration is 35.2/6.6 = 16/3 = 5 + 1/3 hours, and `format_time` renders
it as "5 hours 20 minutes". -/
theorem c7_concrete_scenario :
    energy_needed 40 100 0 80 = 176/5 ∧
    calculate_charging_time ⟨40, 100, 0, 33/5⟩ 80 =
      Except.ok (Duration.Finite (16/3)) ∧
    (16/3 : ℚ) = (176/5) / (33/5) ∧
    (16/3 : ℚ) = 5 + 1/3 ∧
    format_time (Duration.Finite (16/3)) = "5 hours 20 minutes" := by
  refine ⟨by norm_num [energy_needed], ?_, by norm_num, by norm_num, ?_⟩
  · rw [calc_spec_pos _ _ ⟨by norm_num, by norm_num⟩ (by norm_num)]
    simp only [energy_needed, Except.ok.injEq, Duration.Finite.injEq]
    norm_num
  · have h5 : pyTrunc (16/3) = 5 := by
      unfold pyTrunc
      rw [if_pos (by norm_num), Int.floor_eq_iff]
      norm_num
    have harg : ((16 : ℚ)/3 - ((5 : ℤ) : ℚ)) * 60 = 20 := by norm_num
    have h20 : pyTrunc (20 : ℚ) = 20 := by
      unfold pyTrunc
      rw [if_pos (by norm_num), Int.floor_eq_iff]
      norm_num
    simp only [format_time, h5, harg, h20]
    norm_num
    decide

/-- Claim C8: for every nonnegative finite duration, `format_time`
agrees with the TimeFormatter written from the spec's words (floor
hours, floor of fractional hour × 60 minutes, omission branches), and
the infinite sentinel renders as the fixed invalid-input string. -/
theorem c8_format_time_refines_spec (h : ℚ) (h0 : 0 ≤ h) :
    format_time (Duration.Finite h) = format_time_spec (Duration.Finite h) ∧
    format_time Duration.Infinite = format_time_spec Duration.Infinite := by
  constructor
  · have hfloor : pyTrunc h = ⌊h⌋ := by
      unfold pyTrunc
      rw [if_pos h0]
    have hfrac : (0 : ℚ) ≤ (h - ((⌊h⌋ : ℤ) : ℚ)) * 60 :=
      mul_nonneg (sub_nonneg.mpr (Int.floor_le h)) (by norm_num)
    have h2 : pyTrunc ((h - ((⌊h⌋ : ℤ) : ℚ)) * 60) =
        ⌊(h - ((⌊h⌋ : ℤ) : ℚ)) * 60⌋ := by
      unfold pyTrunc
      rw [if_pos hfrac]
    simp only [format_time, format_time_spec, hfloor, h2]
  · rfl

/-- Claim C8 at 7/2 hours (and at the infinite sentinel). -/
theorem c8_witness :
    format_time (Duration.Finite (7/2)) =
      format_time_spec (Duration.Finite (7/2)) ∧
    format_time Duration.Infinite = format_time_spec Duration.Infinite :=
  c8_format_time_refines_spec (7/2) (by norm_num)

/-- Claim C9: for any rate ≤ 0 — zero or strictly negative — and a
valid target, `calculate_charging_time` returns the infinite sentinel,
never a negative or surcharged duration. -/
theorem c9_nonpositive_rate_infinite (cap health current rate target : ℚ)
    (ht0 : 0 ≤ target) (ht1 : target ≤ 100) (hr : rate ≤ 0) :
    calculate_charging_time ⟨cap, health, current, rate⟩ target =
      Except.ok Duration.Infinite :=
  calc_spec_inf _ _ ⟨ht0, ht1⟩ hr

/-- Claim C9 at the strictly negative rate −1.4 kW. -/
theorem c9_witness :
    calculate_charging_time ⟨40, 100, 0, -(7/5)⟩ 80 =
      Except.ok Duration.Infinite :=
  c9_nonpositive_rate_infinite 40 100 0 (-(7/5)) 80 (by norm_num)
    (by norm_num) (by norm_num)

/-- Claim C10: whenever the stripped input is empty (blank or
whitespace-only string) or fails to parse as a float, `validate_number`
returns 0 rather than signalling an error. -/
theorem c10_validate_number_zero_on_bad (s : String)
    (hbad : pyStrip s = "" ∨ pyFloatOfString (pyStrip s) = none) :
    validate_number s = 0 := by
  rcases hbad with h | h
  · simp [validate_number, h]
  · rcases eq_or_ne (pyStrip s) "" with he | he
    · simp [validate_number, he]
    · simp [validate_number, he, h]

/-- Claim C10 on a whitespace-only string and on non-numeric text. -/
theorem c10_witness :
    validate_number "   " = 0 ∧ validate_number "abc" = 0 :=
  ⟨c10_validate_number_zero_on_bad "   " (Or.inl (by decide)),
   c10_validate_number_zero_on_bad "abc" (Or.inr (by decide))⟩

